import Mathlib

/-!
Verification development for the sxg-rs repository core:
the HTTP-server request dispatcher (`src/http_server/src/main.rs`) and the
certificate-issuance helper (`src/tools/src/linux_commands.rs`).

The Rust code is shallowly embedded: pure control flow is translated into
Lean functions over an explicit environment `Env` that carries, as
deterministic oracle functions, the external collaborators the dispatcher
invokes (the `url` crate's parsing and joining, the `sxg_rs` worker's header
transforms and preset lookup, the reverse-proxy client, the signer/encoder).
Fallible Rust (`anyhow::Result`) becomes `Except Err`.  Outcomes carry a
record of the collaborator calls the dispatcher made (which signing call was
assembled, which proxy call was issued), mirroring the call structure of the
source.
-/

/-- Error values: the model of `anyhow::Error`.  The constructors record
which model operation produced the failure; `anyhow::Error` itself is an
unstructured context-carrying value. -/
inductive Err where
  | parseFail (msg : String)
  | missingScheme
  | missingAuthority
  | headerPolicy (msg : String)
  | fetchFail (msg : String)
  | signingFail (msg : String)
  | signerConstruction (msg : String)
  | notEligible (msg : String)
  | spawnFailed (msg : String)
  | nonUtf8Stdout
  | refuseOverwrite (path : String)
  deriving DecidableEq, Repr

/-- HTTP header list, modelling `Vec<(String, String)>` / `HeaderMap`. -/
def Headers : Type := List (String × String)

instance : DecidableEq Headers := inferInstanceAs (DecidableEq (List (String × String)))

instance : Repr Headers := inferInstanceAs (Repr (List (String × String)))

/-- Request method: `sxg_rs::http::Method` has exactly these two cases. -/
inductive Method where
  | get
  | post
  deriving DecidableEq, Repr

/-- `sxg_rs::headers::AcceptFilter`, the client-capability filter. -/
inductive AcceptFilter where
  | acceptsSxg
  | prefersSxg
  deriving DecidableEq, Repr

/-- Model of `url::Url` restricted to the shape the dispatcher builds:
an absolute URL with scheme, host (authority), path and optional query.
Response/request bodies are byte strings, modelled as `String`. -/
structure Url where
  scheme : String
  host : String
  path : String
  query : Option String
  deriving DecidableEq, Repr

/-- `url::Url` serialisation, as produced by `format!("{}", url)`. -/
def Url.format (u : Url) : String :=
  u.scheme ++ "://" ++ u.host ++ u.path ++
    (match u.query with
     | some q => "?" ++ q
     | none => "")

/-- Model of `hyper::Uri`: scheme and authority are optional (a `Uri`
parsed from an origin-form string has neither). -/
structure Uri where
  scheme : Option String
  authority : Option String
  path : String
  query : Option String
  deriving DecidableEq, Repr

/-- `hyper::Uri` serialisation, as produced by `format!("{}", uri)`. -/
def Uri.format (u : Uri) : String :=
  (match u.scheme with
   | some s => s ++ "://"
   | none => "") ++
  (match u.authority with
   | some a => a
   | none => "") ++
  u.path ++
  (match u.query with
   | some q => "?" ++ q
   | none => "")

/-- `url::Url::as_str()` followed by `str::parse::<Uri>()`: a `url::Url` is
always a well-formed absolute URL, so the round trip reconstructs scheme,
authority, path and query structurally. -/
def Url.toUri (u : Url) : Uri :=
  { scheme := some u.scheme
    authority := some u.host
    path := u.path
    query := u.query }

/-- `sxg_rs::http::HttpResponse`: status, headers and a fully buffered body. -/
structure HttpResponse where
  status : Nat
  headers : Headers
  body : String
  deriving DecidableEq, Repr

/-- The inbound `hyper::Request` after `req_to_vec_body`: method, the
request-target string `req.uri()` (origin-form, e.g. `/articles/foo?x=1`),
headers and a buffered body. -/
structure Request where
  method : Method
  uri : String
  headers : Headers
  body : String
  deriving DecidableEq, Repr

/-- `sxg_rs::PresetContent`: the preset-content decision variants consumed
by the dispatcher (the `None` case is `Option.none` at the call site). -/
inductive PresetContent where
  | direct (response : HttpResponse)
  | toBeSigned (url : String) (payload : HttpResponse)
  deriving DecidableEq, Repr

/-- The parameter record of `sxg_rs::CreateSignedExchangeParams` as
assembled by `generate_sxg_response`. -/
structure CreateSignedExchangeParams where
  payload_body : String
  payload_headers : Headers
  skip_process_link : Bool
  status_code : Nat
  fallback_url : String
  cert_origin : String
  deriving DecidableEq, Repr

/-- Client network address (`std::net::IpAddr`), kept abstract as a string. -/
def IpAddr : Type := String

instance : DecidableEq IpAddr := inferInstanceAs (DecidableEq String)

instance : Repr IpAddr := inferInstanceAs (Repr String)

/-- The arguments of one `PROXY_CLIENT.call(client_ip, backend, req)`
invocation, with the forwarded request already flattened into method,
request-target, headers and body. -/
structure ProxyCallRecord where
  client_ip : IpAddr
  backend : String
  method : Method
  uri : String
  headers : Headers
  body : String
  deriving DecidableEq, Repr

/-- The environment of deterministic oracles for the collaborators outside
`src/http_server/src/main.rs`: configuration, the `sxg_rs` worker methods,
the `url`/`hyper` parsers, the reverse-proxy client and the signer. -/
structure Env where
  /-- `WORKER.config().html_host`: the configured signed-domain host. -/
  html_host : String
  /-- Result of `WORKER.create_rust_signer()`; `Unit` stands for the signer
  handle, whose value the dispatcher only boxes into the runtime. -/
  create_rust_signer : Except Err Unit
  /-- `WORKER.serve_preset_content(runtime, url)` excluding the signer
  construction done at the call site, keyed by the formatted request URL. -/
  worker_preset : String → Option PresetContent
  /-- Whether the worker deems a backend URL eligible to be signed under the
  configured domain (the internal decision of `get_fallback_url`). -/
  eligible : Url → Bool
  /-- `WORKER.transform_request_headers(headers, filter)`. -/
  transform_request_headers : Headers → AcceptFilter → Except Err Headers
  /-- `WORKER.transform_payload_headers(headers)`. -/
  transform_payload_headers : Headers → Except Err Headers
  /-- `url::Url::parse`. -/
  url_parse : String → Except Err Url
  /-- `url::Url::join`. -/
  url_join : Url → String → Except Err Url
  /-- `str::parse::<hyper::Uri>()` on an arbitrary string (used for the
  `ToBeSigned` branch's target URL). -/
  uri_parse : String → Except Err Uri
  /-- `PROXY_CLIENT.call(client_ip, backend, req)` followed by body
  buffering: the backend's response to the forwarded request. -/
  proxy_call : IpAddr → String → ProxyCallRecord → Except Err HttpResponse
  /-- `WORKER.create_signed_exchange(runtime, params)`: the external
  signer/encoder producing the signed-exchange response. -/
  create_signed_exchange : CreateSignedExchangeParams → Except Err HttpResponse

/-- Modelled from the spec: `sxg_rs::SxgWorker::get_fallback_url` is not
under `src/`; §4.3 of the spec defines it.  It maps a backend-fetched URL to
the fallback URL: path and query are preserved and the authority is
substituted for the configured signed-domain host when the worker determines
the request is eligible to be signed under that domain; otherwise it fails
(never adopting a backend-chosen authority). -/
def get_fallback_url (html_host : String) (eligible : Url → Bool) (backend_url : Url) :
    Except Err Url :=
  if eligible backend_url then
    .ok { backend_url with host := html_host }
  else
    .error (.notEligible backend_url.host)

/-- The `cert_origin` computation of `generate_sxg_response`
(main.rs lines 108-116): `format!("{}://{}", scheme, authority)` of the
fallback URL, failing if scheme or authority is absent. -/
def cert_origin_of (fallback_url : Uri) : Except Err String :=
  match fallback_url.scheme with
  | none => .error .missingScheme
  | some s =>
    match fallback_url.authority with
    | none => .error .missingAuthority
    | some a => .ok (s ++ "://" ++ a)

/-- The `CreateSignedExchangeParams` literal of main.rs lines 127-136:
the payload body and transformed headers, `skip_process_link: false`,
`status_code: 200`, the formatted fallback URL and the derived cert origin. -/
def assemble_params (fallback_url : Uri) (payload : HttpResponse) (ph : Headers)
    (co : String) : CreateSignedExchangeParams :=
  { payload_body := payload.body
    payload_headers := ph
    skip_process_link := false
    status_code := 200
    fallback_url := Uri.format fallback_url
    cert_origin := co }

/-- `generate_sxg_response` (main.rs lines 103-141): derive the cert origin
from the fallback URL, construct the runtime (which requires
`create_rust_signer` to succeed), transform the payload headers, assemble
`CreateSignedExchangeParams` with `skip_process_link = false` and
`status_code = 200`, and invoke the signer.  Returns the signed-exchange
response together with the assembled parameter record. -/
def generate_sxg_response (env : Env) (fallback_url : Uri) (payload : HttpResponse) :
    Except Err (HttpResponse × CreateSignedExchangeParams) := do
  let co ← cert_origin_of fallback_url
  let _ ← env.create_rust_signer
  let ph ← env.transform_payload_headers payload.headers
  let sxg ← env.create_signed_exchange (assemble_params fallback_url payload ph co)
  .ok (sxg, assemble_params fallback_url payload ph co)

/-- `serve_preset_content` (main.rs lines 143-156): construct the runtime
with `WORKER.create_rust_signer().ok()?` — a signer-construction failure
short-circuits to `none` — then query the worker's preset-content resolver. -/
def serve_preset_content (env : Env) (url : String) : Option PresetContent :=
  match env.create_rust_signer with
  | .error _ => none
  | .ok _ => env.worker_preset url

/-- The canonical request URL of `handle` (main.rs lines 173-174):
`url::Url::parse("https://{html_host}/")?.join(req.uri())?`, formatted for
the preset-content lookup. -/
def compute_req_url (env : Env) (req : Request) : Except Err String := do
  let base ← env.url_parse ("https://" ++ env.html_host ++ "/")
  let u ← env.url_join base req.uri
  .ok u.format

/-- The outcome of a successful `handle` run: the response, together with a
record of the signing call assembled (if any), the proxy call issued
(if any), and the fallback URL bound by the branch taken (if any). -/
structure Outcome where
  response : HttpResponse
  signingCall : Option CreateSignedExchangeParams
  proxied : Option ProxyCallRecord
  fallbackUrl : Option Uri
  deriving DecidableEq, Repr

/-- The `None` arm of `handle`'s match (main.rs lines 187-208) followed by
the shared `generate_sxg_response` tail (line 210): join the backend origin
with the request target, derive the fallback URL, transform the request
headers with `PrefersSxg`, rebuild the request from the filtered headers and
the original method, target and body, proxy it with the client address, and
sign the payload response. -/
def handle_none_branch (env : Env) (client_ip : IpAddr) (req : Request) (backend : String) :
    Except Err Outcome := do
  let bu ← env.url_parse backend
  let backend_url ← env.url_join bu req.uri
  let fb ← get_fallback_url env.html_host env.eligible backend_url
  let req_headers ← env.transform_request_headers req.headers .prefersSxg
  let sxg_payload ← env.proxy_call client_ip backend
      { client_ip := client_ip
        backend := backend
        method := req.method
        uri := req.uri
        headers := req_headers
        body := req.body }
  let res ← generate_sxg_response env fb.toUri sxg_payload
  .ok { response := res.1
        signingCall := some res.2
        proxied := some
          { client_ip := client_ip
            backend := backend
            method := req.method
            uri := req.uri
            headers := req_headers
            body := req.body }
        fallbackUrl := some fb.toUri }

/-- The `ToBeSigned` arm of `handle`'s match (main.rs lines 180-186)
followed by the shared `generate_sxg_response` tail (line 210): parse the
preset target URL as the fallback URL, validate the request headers with
`AcceptsSxg` (the transformed headers are not otherwise used), and sign the
preset-supplied payload. -/
def handle_tobesigned_branch (env : Env) (req : Request) (url : String)
    (payload : HttpResponse) : Except Err Outcome := do
  let fallback_url ← env.uri_parse url
  let _ ← env.transform_request_headers req.headers .acceptsSxg
  let res ← generate_sxg_response env fallback_url payload
  .ok { response := res.1
        signingCall := some res.2
        proxied := none
        fallbackUrl := some fallback_url }

/-- `handle` (main.rs lines 166-211): compute the canonical request URL,
query the preset-content resolver, and dispatch on its three-way result.
`Direct` returns the resolver's response as-is; `ToBeSigned` parses the
target URL as the fallback, validates the request headers with `AcceptsSxg`
and signs the supplied payload; `None` proxies to the backend and signs. -/
def handle (env : Env) (client_ip : IpAddr) (req : Request) (backend : String) :
    Except Err Outcome := do
  let req_url ← compute_req_url env req
  match serve_preset_content env req_url with
  | some (.direct response) =>
    .ok { response := response
          signingCall := none
          proxied := none
          fallbackUrl := none }
  | some (.toBeSigned url payload) => handle_tobesigned_branch env req url payload
  | none => handle_none_branch env client_ip req backend

/-- `format!("{:?}", e)`: the debug rendering of an error placed into the
500 response body by `handle_or_error`. -/
def debugRender : Err → String
  | .parseFail msg => "ParseError(" ++ msg ++ ")"
  | .missingScheme => "fallback url missing scheme"
  | .missingAuthority => "fallback url missing authority"
  | .headerPolicy msg => "HeaderPolicyError(" ++ msg ++ ")"
  | .fetchFail msg => "FetchError(" ++ msg ++ ")"
  | .signingFail msg => "SigningError(" ++ msg ++ ")"
  | .signerConstruction msg => "SignerConstructionError(" ++ msg ++ ")"
  | .notEligible msg => "NotEligible(" ++ msg ++ ")"
  | .spawnFailed msg => "Failed to execute command: " ++ msg
  | .nonUtf8Stdout => "The stdout contains non-utf8 bytes."
  | .refuseOverwrite path => "Cowardly refuse to overwrite " ++ path

/-- `handle_or_error` (main.rs lines 214-224): on success return `handle`'s
response unchanged; on failure return a 500 response whose body is the debug
rendering of the error.  Total: every request receives a response. -/
def handle_or_error (env : Env) (client_ip : IpAddr) (req : Request) (backend : String) :
    HttpResponse :=
  match handle env client_ip req backend with
  | .ok out => out.response
  | .error e =>
    { status := 500
      headers := []
      body := debugRender e }

/-!
Embedding of `src/tools/src/linux_commands.rs`: the certificate-issuance
helper.  The filesystem is modelled as a map from paths to file contents,
and command execution as a deterministic oracle (`World`) mapping each
constructed command to the observable result of `Command::output()`.
-/

/-- A `std::process::Command`: program and argument list, as built by the
`.arg(..)` chains in `linux_commands.rs`. -/
structure Command where
  program : String
  args : List String
  deriving DecidableEq, Repr

/-- The observable result of `Command::output()`: whether the spawn
succeeded, the captured stdout bytes (modelled as a string), whether those
bytes are valid UTF-8, and the child's exit status. -/
structure CommandResult where
  /-- `command.output()` returned `Ok` (the process could be spawned). -/
  spawned : Bool
  /-- The captured stdout bytes. -/
  stdout : String
  /-- Whether the stdout bytes are valid UTF-8 (`String::from_utf8` succeeds). -/
  stdout_utf8 : Bool
  /-- `output.status.success()` — present in the output, never consulted. -/
  exit_ok : Bool
  deriving DecidableEq, Repr

/-- The external world of process execution: what each command produces. -/
def World : Type := Command → CommandResult

/-- The filesystem: path to file contents, `none` when no file exists. -/
def FileSystem : Type := String → Option String

/-- `std::fs::write`: create or truncate the file at `path`. -/
def FileSystem.write (fs : FileSystem) (path content : String) : FileSystem :=
  fun q => if q = path then some content else fs q

/-- `execute` (linux_commands.rs lines 20-25): run the command and return
its captured stdout; fails only when the command cannot be spawned.  The
exit status in the output is never inspected. -/
def execute (w : World) (c : Command) : Except Err String :=
  if (w c).spawned then .ok (w c).stdout
  else .error (.spawnFailed c.program)

/-- `execute_and_parse_stdout` (lines 28-32): `execute`, then decode the
stdout as UTF-8. -/
def execute_and_parse_stdout (w : World) (c : Command) : Except Err String := do
  let stdout ← execute w c
  if (w c).stdout_utf8 then .ok stdout
  else .error .nonUtf8Stdout

/-- `write_new_file` (lines 36-47): refuse to overwrite an existing file;
otherwise write the content.  The filesystem is returned in both cases so
that mutation (or its absence) is observable. -/
def write_new_file (fs : FileSystem) (path content : String) :
    Except Err Unit × FileSystem :=
  if (fs path).isSome then
    (.error (.refuseOverwrite path), fs)
  else
    (.ok (), fs.write path content)

/-- The openssl command built by `create_private_key_pem` (lines 53-61). -/
def genkeyCommand : Command :=
  { program := "openssl"
    args := ["ecparam", "-outform", "pem", "-name", "prime256v1", "-genkey"] }

/-- `create_private_key_pem` (lines 52-64): run `openssl ecparam ... -genkey`,
then write the PEM to `output_file`, failing if it already exists.  Returns
the PEM and the possibly-updated filesystem. -/
def create_private_key_pem (w : World) (fs : FileSystem) (output_file : String) :
    Except Err String × FileSystem :=
  match execute_and_parse_stdout w genkeyCommand with
  | .error e => (.error e, fs)
  | .ok privkey_pem =>
    match write_new_file fs output_file privkey_pem with
    | (.error e, fs') => (.error e, fs')
    | (.ok _, fs') => (.ok privkey_pem, fs')

/-- The openssl command built by `create_certificate_request_pem`
(lines 74-83). -/
def csrCommand (domain private_key_file : String) : Command :=
  { program := "openssl"
    args := ["req", "-new", "-sha256", "-key", private_key_file,
             "-subj", "/CN=" ++ domain ++ "/O=Test/C=US"] }

/-- `create_certificate_request_pem` (lines 69-86): run
`openssl req -new ...`, then write the CSR PEM to `output_file`, failing if
it already exists. -/
def create_certificate_request_pem (w : World) (domain private_key_file : String)
    (fs : FileSystem) (output_file : String) : Except Err String × FileSystem :=
  match execute_and_parse_stdout w (csrCommand domain private_key_file) with
  | .error e => (.error e, fs)
  | .ok cert_csr_pem =>
    match write_new_file fs output_file cert_csr_pem with
    | (.error e, fs') => (.error e, fs')
    | (.ok _, fs') => (.ok cert_csr_pem, fs')

/-- The openssl command built by `create_certificate` (lines 99-111). -/
def x509Command (private_key_file certificiate_request_file ext_file : String) : Command :=
  { program := "openssl"
    args := ["x509", "-req", "-days", "90", "-in", certificiate_request_file,
             "-signkey", private_key_file, "-extfile", ext_file] }

/-- `create_certificate` (lines 93-114): run `openssl x509 -req ...`, then
write the certificate PEM to `output_file`, failing if it already exists. -/
def create_certificate (w : World) (private_key_file certificiate_request_file ext_file : String)
    (fs : FileSystem) (output_file : String) : Except Err String × FileSystem :=
  match execute_and_parse_stdout w
      (x509Command private_key_file certificiate_request_file ext_file) with
  | .error e => (.error e, fs)
  | .ok cert_pem =>
    match write_new_file fs output_file cert_pem with
    | (.error e, fs') => (.error e, fs')
    | (.ok _, fs') => (.ok cert_pem, fs')

/-!
Concrete fixtures used to evaluate the model on closed inputs: a deployment
with signed domain `signed.example` proxying `https://backend.example`.
-/

/-- `url::Url::parse` oracle for concrete runs: recognises the two absolute
URLs the dispatcher constructs in these runs. -/
def testUrlParse : String → Except Err Url := fun s =>
  if s = "https://signed.example/" then
    .ok { scheme := "https", host := "signed.example", path := "/", query := none }
  else if s = "https://backend.example" then
    .ok { scheme := "https", host := "backend.example", path := "/", query := none }
  else .error (.parseFail s)

/-- `url::Url::join` oracle for concrete runs: joining a base URL with an
origin-form request target replaces path and query. -/
def testUrlJoin : Url → String → Except Err Url := fun u pq =>
  .ok { u with path := pq, query := none }

/-- A concrete environment: healthy signer, no preset content, every backend
URL eligible for signing, identity header transforms, a backend answering
200 with body `payload`, and a signer producing the bytes `sxgbytes`. -/
def testEnv : Env :=
  { html_host := "signed.example"
    create_rust_signer := .ok ()
    worker_preset := fun _ => none
    eligible := fun _ => true
    transform_request_headers := fun hs _ => .ok hs
    transform_payload_headers := fun hs => .ok hs
    url_parse := testUrlParse
    url_join := testUrlJoin
    uri_parse := fun s => .error (.parseFail s)
    proxy_call := fun _ _ _ =>
      .ok { status := 200, headers := [("content-type", "text/html")], body := "payload" }
    create_signed_exchange := fun _ =>
      .ok { status := 200, headers := [], body := "sxgbytes" } }

/-- `testEnv` with a backend that answers 404 `not found` to every request. -/
def testEnv404 : Env :=
  { testEnv with proxy_call := (fun _ _ _ =>
      Except.ok ({ status := 404, headers := [], body := "not found" } : HttpResponse)) }

/-- `testEnv` with preset content: the URL `https://signed.example/cert`
maps to a `Direct` certificate-chain response. -/
def testEnvDirect : Env :=
  { testEnv with worker_preset := (fun u =>
      if u = "https://signed.example/cert" then
        some (PresetContent.direct ({ status := 200
                                      headers := [("content-type", "application/cert-chain+cbor")]
                                      body := "certbytes" } : HttpResponse))
      else none) }

/-- `testEnv` with a failing signer construction. -/
def testEnvBadSigner : Env :=
  { testEnv with create_rust_signer := Except.error (Err.signerConstruction "no key") }

/-- A concrete inbound request for `/articles/foo`. -/
def testReq : Request :=
  { method := .get, uri := "/articles/foo", headers := [("accept", "text/html")], body := "" }

/-- A concrete inbound request for `/missing` (backend will 404). -/
def testReqMissing : Request :=
  { method := .get, uri := "/missing", headers := [], body := "" }

/-- A concrete inbound request for the preset certificate path `/cert`. -/
def testReqCert : Request :=
  { method := .get, uri := "/cert", headers := [], body := "" }

/-- A world in which `openssl ecparam -genkey` spawns, exits with a failure
status, and still emits the (partial) stdout `PARTIAL`. -/
def testWorldFailedExit : World := fun _ =>
  { spawned := true, stdout := "PARTIAL", stdout_utf8 := true, exit_ok := false }

/-- A world in which every command spawns, succeeds and prints `PEMDATA`. -/
def testWorldOk : World := fun _ =>
  { spawned := true, stdout := "PEMDATA", stdout_utf8 := true, exit_ok := true }

/-- The empty filesystem. -/
def emptyFS : FileSystem := fun _ => none

/-- A filesystem holding one file `key.pem` with contents `OLDKEY`. -/
def testFS : FileSystem := fun p => if p = "key.pem" then some "OLDKEY" else none

/-- The backend origin URL as parsed in the concrete runs. -/
def backendOriginUrl : Url :=
  { scheme := "https", host := "backend.example", path := "/", query := none }

/-- The joined backend URL for `/articles/foo`. -/
def fooBackendUrl : Url :=
  { scheme := "https", host := "backend.example", path := "/articles/foo", query := none }

/-- The fallback URL for `/articles/foo` under the signed domain. -/
def fooFallbackUri : Uri :=
  { scheme := some "https", authority := some "signed.example"
    path := "/articles/foo", query := none }

/-- The proxy call the dispatcher issues for `testReq` in `testEnv`. -/
def fooProxyRecord : ProxyCallRecord :=
  { client_ip := "203.0.113.7", backend := "https://backend.example"
    method := .get, uri := "/articles/foo"
    headers := [("accept", "text/html")], body := "" }

/-- The signing parameters assembled for `testReq` in `testEnv`. -/
def fooParams : CreateSignedExchangeParams :=
  { payload_body := "payload", payload_headers := [("content-type", "text/html")]
    skip_process_link := false, status_code := 200
    fallback_url := "https://signed.example/articles/foo"
    cert_origin := "https://signed.example" }

/-- The full outcome of the `testReq` run in `testEnv`. -/
def fooOutcome : Outcome :=
  { response := { status := 200, headers := [], body := "sxgbytes" }
    signingCall := some fooParams
    proxied := some fooProxyRecord
    fallbackUrl := some fooFallbackUri }

/-- The signing parameters assembled for `/missing` in `testEnv404`. -/
def missingParams : CreateSignedExchangeParams :=
  { payload_body := "not found", payload_headers := []
    skip_process_link := false, status_code := 200
    fallback_url := "https://signed.example/missing"
    cert_origin := "https://signed.example" }

/-- The proxy call the dispatcher issues for `testReqMissing`. -/
def missingProxyRecord : ProxyCallRecord :=
  { client_ip := "203.0.113.7", backend := "https://backend.example"
    method := .get, uri := "/missing", headers := [], body := "" }

/-- The full outcome of the `testReqMissing` run in `testEnv404`: the 404
backend body is signed with status forced to 200. -/
def missingOutcome : Outcome :=
  { response := { status := 200, headers := [], body := "sxgbytes" }
    signingCall := some missingParams
    proxied := some missingProxyRecord
    fallbackUrl := some { scheme := some "https", authority := some "signed.example"
                          path := "/missing", query := none } }

/-!
Theorems.  `ebind_ok`/`ebind_err` unfold the `Except` bind;
`handle_ok_cases` inverts a successful `handle` run into the three dispatch
branches; `generate_sxg_response_ok` characterises the assembled signing
parameters.  The claim theorems follow.
-/

theorem ebind_ok {α β : Type} (a : α) (f : α → Except Err β) :
    (Except.ok a : Except Err α) >>= f = f a := rfl

theorem ebind_err {α β : Type} (e : Err) (f : α → Except Err β) :
    (Except.error e : Except Err α) >>= f = Except.error e := rfl

/-- Inversion of a successful `generate_sxg_response`: the assembled
parameter record is `assemble_params` of the fallback URL, the payload, the
transformed payload headers and the derived cert origin, and the response is
whatever the signer produced on it. -/
theorem generate_sxg_response_ok (env : Env) (fb : Uri) (payload : HttpResponse)
    (res : HttpResponse × CreateSignedExchangeParams)
    (h : generate_sxg_response env fb payload = .ok res) :
    ∃ co ph,
      cert_origin_of fb = .ok co ∧
      env.transform_payload_headers payload.headers = .ok ph ∧
      env.create_signed_exchange (assemble_params fb payload ph co) = .ok res.1 ∧
      res.2 = assemble_params fb payload ph co := by
  unfold generate_sxg_response at h
  cases hco : cert_origin_of fb with
  | error e => rw [hco, ebind_err] at h; exact Except.noConfusion h
  | ok co =>
    rw [hco, ebind_ok] at h
    cases hsig : env.create_rust_signer with
    | error e => rw [hsig, ebind_err] at h; exact Except.noConfusion h
    | ok u =>
      rw [hsig, ebind_ok] at h
      cases hph : env.transform_payload_headers payload.headers with
      | error e => rw [hph, ebind_err] at h; exact Except.noConfusion h
      | ok ph =>
        rw [hph, ebind_ok] at h
        cases hsxg : env.create_signed_exchange (assemble_params fb payload ph co) with
        | error e => rw [hsxg, ebind_err] at h; exact Except.noConfusion h
        | ok sxg =>
          rw [hsxg, ebind_ok] at h
          injection h with h
          subst h
          exact ⟨co, ph, rfl, rfl, hsxg, rfl⟩

/-- Inversion of a successful `handle` run: exactly one of the three
dispatch branches produced the outcome, and the outcome records the branch's
collaborator calls. -/
theorem handle_ok_cases (env : Env) (ip : IpAddr) (req : Request) (backend : String)
    (out : Outcome) (h : handle env ip req backend = .ok out) :
    (∃ ru resp,
        compute_req_url env req = .ok ru ∧
        serve_preset_content env ru = some (.direct resp) ∧
        out = { response := resp, signingCall := none, proxied := none,
                fallbackUrl := none }) ∨
    (∃ ru url payload fb res,
        compute_req_url env req = .ok ru ∧
        serve_preset_content env ru = some (.toBeSigned url payload) ∧
        env.uri_parse url = .ok fb ∧
        generate_sxg_response env fb payload = .ok res ∧
        out = { response := res.1, signingCall := some res.2, proxied := none,
                fallbackUrl := some fb }) ∨
    (∃ ru bu burl fb rh payload res,
        compute_req_url env req = .ok ru ∧
        serve_preset_content env ru = none ∧
        env.url_parse backend = .ok bu ∧
        env.url_join bu req.uri = .ok burl ∧
        get_fallback_url env.html_host env.eligible burl = .ok fb ∧
        env.transform_request_headers req.headers .prefersSxg = .ok rh ∧
        env.proxy_call ip backend
          { client_ip := ip, backend := backend, method := req.method,
            uri := req.uri, headers := rh, body := req.body } = .ok payload ∧
        generate_sxg_response env fb.toUri payload = .ok res ∧
        out = { response := res.1, signingCall := some res.2,
                proxied := some { client_ip := ip, backend := backend,
                                  method := req.method, uri := req.uri,
                                  headers := rh, body := req.body },
                fallbackUrl := some fb.toUri }) := by
  unfold handle at h
  cases hru : compute_req_url env req with
  | error e => rw [hru, ebind_err] at h; exact Except.noConfusion h
  | ok ru =>
    rw [hru, ebind_ok] at h
    cases hps : serve_preset_content env ru with
    | some pc =>
      rw [hps] at h
      cases pc with
      | direct resp =>
        left
        injection h with h
        subst h
        exact ⟨ru, resp, rfl, hps, rfl⟩
      | toBeSigned url payload =>
        right; left
        replace h : handle_tobesigned_branch env req url payload = Except.ok out := h
        unfold handle_tobesigned_branch at h
        cases hfb : env.uri_parse url with
        | error e => rw [hfb, ebind_err] at h; exact Except.noConfusion h
        | ok fb =>
          rw [hfb, ebind_ok] at h
          cases hth : env.transform_request_headers req.headers .acceptsSxg with
          | error e => rw [hth, ebind_err] at h; exact Except.noConfusion h
          | ok rh =>
            rw [hth, ebind_ok] at h
            cases hgen : generate_sxg_response env fb payload with
            | error e => rw [hgen, ebind_err] at h; exact Except.noConfusion h
            | ok res =>
              rw [hgen, ebind_ok] at h
              injection h with h
              subst h
              exact ⟨ru, url, payload, fb, res, rfl, hps, hfb, hgen, rfl⟩
    | none =>
      rw [hps] at h
      right; right
      unfold handle_none_branch at h
      cases hbu : env.url_parse backend with
      | error e => rw [hbu, ebind_err] at h; exact Except.noConfusion h
      | ok bu =>
        rw [hbu, ebind_ok] at h
        cases hj : env.url_join bu req.uri with
        | error e => rw [hj, ebind_err] at h; exact Except.noConfusion h
        | ok burl =>
          rw [hj, ebind_ok] at h
          cases hfb : get_fallback_url env.html_host env.eligible burl with
          | error e => rw [hfb, ebind_err] at h; exact Except.noConfusion h
          | ok fb =>
            rw [hfb, ebind_ok] at h
            cases hth : env.transform_request_headers req.headers .prefersSxg with
            | error e => rw [hth, ebind_err] at h; exact Except.noConfusion h
            | ok rh =>
              rw [hth, ebind_ok] at h
              cases hpx : env.proxy_call ip backend
                  { client_ip := ip, backend := backend, method := req.method,
                    uri := req.uri, headers := rh, body := req.body } with
              | error e => rw [hpx, ebind_err] at h; exact Except.noConfusion h
              | ok payload =>
                rw [hpx, ebind_ok] at h
                cases hgen : generate_sxg_response env fb.toUri payload with
                | error e => rw [hgen, ebind_err] at h; exact Except.noConfusion h
                | ok res =>
                  rw [hgen, ebind_ok] at h
                  injection h with h
                  subst h
                  exact ⟨ru, bu, burl, fb, rh, payload, res, rfl, hps, rfl, hj,
                         hfb, rfl, hpx, hgen, rfl⟩

/-- C3: for every request whose URL matches a preset-content mapping
returning `Direct`, the dispatcher returns the resolver-supplied response
verbatim — the final response's status and body are exactly what the
resolver supplied — and no signing call and no proxy call are made. -/
theorem c3_direct_identity (env : Env) (ip : IpAddr) (req : Request) (backend : String)
    (ru : String) (resp : HttpResponse)
    (hru : compute_req_url env req = .ok ru)
    (hps : serve_preset_content env ru = some (.direct resp)) :
    handle env ip req backend =
      .ok { response := resp, signingCall := none, proxied := none, fallbackUrl := none } := by
  unfold handle
  rw [hru, ebind_ok, hps]

/-- C3 witness: in `testEnvDirect`, the request for `/cert` is answered with
the stored certificate bytes, no signing call and no proxy call. -/
theorem c3_direct_identity_witness :
    compute_req_url testEnvDirect testReqCert = .ok "https://signed.example/cert" ∧
    serve_preset_content testEnvDirect "https://signed.example/cert" =
      some (.direct { status := 200
                      headers := [("content-type", "application/cert-chain+cbor")]
                      body := "certbytes" }) ∧
    handle testEnvDirect "203.0.113.7" testReqCert "https://backend.example" =
      .ok { response := { status := 200
                          headers := [("content-type", "application/cert-chain+cbor")]
                          body := "certbytes" }
            signingCall := none
            proxied := none
            fallbackUrl := none } :=
  ⟨rfl, rfl,
    c3_direct_identity testEnvDirect "203.0.113.7" testReqCert "https://backend.example"
      "https://signed.example/cert"
      { status := 200
        headers := [("content-type", "application/cert-chain+cbor")]
        body := "certbytes" }
      rfl rfl⟩

/-- C4: the certificate origin passed to signing is exactly the string
`scheme://authority` of the fallback URL; the derivation is a pure function
of the fallback URL's scheme and authority (any two fallback URLs agreeing
on those yield the same cert origin), and every successful signing call
carries exactly that string. -/
theorem c4_cert_origin_pure (fb fb' : Uri) (s a : String)
    (hs : fb.scheme = some s) (ha : fb.authority = some a) :
    cert_origin_of fb = .ok (s ++ "://" ++ a) ∧
    (fb'.scheme = fb.scheme → fb'.authority = fb.authority →
        cert_origin_of fb' = cert_origin_of fb) ∧
    (∀ env payload res, generate_sxg_response env fb payload = .ok res →
        res.2.cert_origin = s ++ "://" ++ a) := by
  have hfb : cert_origin_of fb = .ok (s ++ "://" ++ a) := by
    unfold cert_origin_of
    rw [hs, ha]
  refine ⟨hfb, ?_, ?_⟩
  · intro h1 h2
    unfold cert_origin_of
    rw [h1, h2]
  · intro env payload res hgen
    obtain ⟨co, ph, hco, hph, hsxg, hres⟩ := generate_sxg_response_ok env fb payload res hgen
    rw [hfb] at hco
    injection hco with hco
    rw [hres, ← hco]
    rfl

/-- C4 witness: the fallback URL `https://signed.example/articles/foo`
yields cert origin `https://signed.example`, and a successful signing call
in `testEnv` carries it. -/
theorem c4_cert_origin_pure_witness :
    cert_origin_of { scheme := some "https", authority := some "signed.example",
                     path := "/articles/foo", query := none } =
      .ok "https://signed.example" ∧
    (∀ env payload res,
        generate_sxg_response env
          { scheme := some "https", authority := some "signed.example",
            path := "/articles/foo", query := none } payload = .ok res →
        res.2.cert_origin = "https://signed.example") :=
  ⟨(c4_cert_origin_pure
      { scheme := some "https", authority := some "signed.example",
        path := "/articles/foo", query := none }
      { scheme := some "https", authority := some "signed.example",
        path := "/articles/foo", query := none }
      "https" "signed.example" rfl rfl).1,
   (c4_cert_origin_pure
      { scheme := some "https", authority := some "signed.example",
        path := "/articles/foo", query := none }
      { scheme := some "https", authority := some "signed.example",
        path := "/articles/foo", query := none }
      "https" "signed.example" rfl rfl).2.2⟩

/-- C5: every signing call the dispatcher assembles, on any request that
reaches signing, has `status_code = 200` and `skip_process_link = false`. -/
theorem c5_signing_params_fixed (env : Env) (ip : IpAddr) (req : Request) (backend : String)
    (out : Outcome) (p : CreateSignedExchangeParams)
    (hok : handle env ip req backend = .ok out)
    (hp : out.signingCall = some p) :
    p.status_code = 200 ∧ p.skip_process_link = false := by
  rcases handle_ok_cases env ip req backend out hok with
    ⟨ru, resp, _, _, rfl⟩ |
    ⟨ru, url, payload, fb, res, _, _, _, hgen, rfl⟩ |
    ⟨ru, bu, burl, fb, rh, payload, res, _, _, _, _, _, _, _, hgen, rfl⟩
  · exact Option.noConfusion hp
  · obtain ⟨co, ph, _, _, _, hres⟩ := generate_sxg_response_ok env fb payload res hgen
    have hp2 : res.2 = p := by injection hp
    rw [← hp2, hres]
    exact ⟨rfl, rfl⟩
  · obtain ⟨co, ph, _, _, _, hres⟩ := generate_sxg_response_ok env fb.toUri payload res hgen
    have hp2 : res.2 = p := by injection hp
    rw [← hp2, hres]
    exact ⟨rfl, rfl⟩

/-- C5 witness: the signing call of the concrete `/articles/foo` run in
`testEnv` has `status_code = 200` and `skip_process_link = false`. -/
theorem c5_signing_params_fixed_witness :
    (handle testEnv "203.0.113.7" testReq "https://backend.example" = .ok
      { response := { status := 200, headers := [], body := "sxgbytes" }
        signingCall := some
          { payload_body := "payload"
            payload_headers := [("content-type", "text/html")]
            skip_process_link := false
            status_code := 200
            fallback_url := "https://signed.example/articles/foo"
            cert_origin := "https://signed.example" }
        proxied := some
          { client_ip := "203.0.113.7", backend := "https://backend.example"
            method := .get, uri := "/articles/foo"
            headers := [("accept", "text/html")], body := "" }
        fallbackUrl := some
          { scheme := some "https", authority := some "signed.example"
            path := "/articles/foo", query := none } }) ∧
    ({ payload_body := "payload"
       payload_headers := [("content-type", "text/html")]
       skip_process_link := false
       status_code := 200
       fallback_url := "https://signed.example/articles/foo"
       cert_origin := "https://signed.example" : CreateSignedExchangeParams }.status_code = 200 ∧
     { payload_body := "payload"
       payload_headers := [("content-type", "text/html")]
       skip_process_link := false
       status_code := 200
       fallback_url := "https://signed.example/articles/foo"
       cert_origin := "https://signed.example" : CreateSignedExchangeParams }.skip_process_link
       = false) :=
  ⟨rfl,
    c5_signing_params_fixed testEnv "203.0.113.7" testReq "https://backend.example"
      { response := { status := 200, headers := [], body := "sxgbytes" }
        signingCall := some
          { payload_body := "payload"
            payload_headers := [("content-type", "text/html")]
            skip_process_link := false
            status_code := 200
            fallback_url := "https://signed.example/articles/foo"
            cert_origin := "https://signed.example" }
        proxied := some
          { client_ip := "203.0.113.7", backend := "https://backend.example"
            method := .get, uri := "/articles/foo"
            headers := [("accept", "text/html")], body := "" }
        fallbackUrl := some
          { scheme := some "https", authority := some "signed.example"
            path := "/articles/foo", query := none } }
      { payload_body := "payload"
        payload_headers := [("content-type", "text/html")]
        skip_process_link := false
        status_code := 200
        fallback_url := "https://signed.example/articles/foo"
        cert_origin := "https://signed.example" }
      rfl rfl⟩

/-- C1: for every request dispatched through the `None` branch, the
fallback URL bound before signing carries the configured signed-domain host
as its authority — never the backend's — and preserves the path and query of
the joined backend URL; when the request is not eligible to be signed under
that domain, the run fails instead of adopting a backend-chosen authority. -/
theorem c1_none_branch_fallback_host (env : Env) (ip : IpAddr) (req : Request)
    (backend : String) (ru : String) (bu burl : Url) (out : Outcome)
    (hru : compute_req_url env req = .ok ru)
    (hps : serve_preset_content env ru = none)
    (hbu : env.url_parse backend = .ok bu)
    (hj : env.url_join bu req.uri = .ok burl) :
    (handle env ip req backend = .ok out →
      out.fallbackUrl = some { scheme := some burl.scheme
                               authority := some env.html_host
                               path := burl.path
                               query := burl.query } ∧
      (burl.host ≠ env.html_host →
        out.fallbackUrl.map Uri.authority ≠ some (some burl.host))) ∧
    (env.eligible burl = false → ∃ e, handle env ip req backend = .error e) := by
  constructor
  · intro hok
    rcases handle_ok_cases env ip req backend out hok with
      ⟨ru', resp, hru', hps', hout⟩ |
      ⟨ru', url, payload, fb, res, hru', hps', _, _, hout⟩ |
      ⟨ru', bu', burl', fb, rh, payload, res, hru', hps', hbu', hj', hfb, hth, hpx,
        hgen, hout⟩
    · rw [hru] at hru'
      injection hru' with hru'
      subst hru'
      rw [hps] at hps'
      exact Option.noConfusion hps'
    · rw [hru] at hru'
      injection hru' with hru'
      subst hru'
      rw [hps] at hps'
      exact Option.noConfusion hps'
    · rw [hbu] at hbu'
      injection hbu' with hbu'
      subst hbu'
      rw [hj] at hj'
      injection hj' with hj'
      subst hj'
      unfold get_fallback_url at hfb
      split at hfb
      · injection hfb with hfb
        subst hfb
        subst hout
        refine ⟨rfl, ?_⟩
        intro hne heq
        simp only [Url.toUri, Option.map] at heq
        injection heq with heq
        injection heq with heq
        exact hne heq.symm
      · exact Except.noConfusion hfb
  · intro hfalse
    cases hh : handle env ip req backend with
    | error e => exact ⟨e, rfl⟩
    | ok out' =>
      exfalso
      rcases handle_ok_cases env ip req backend out' hh with
        ⟨ru', resp, hru', hps', _⟩ |
        ⟨ru', url, payload, fb, res, hru', hps', _, _, _⟩ |
        ⟨ru', bu', burl', fb, rh, payload, res, hru', hps', hbu', hj', hfb, _, _, _, _⟩
      · rw [hru] at hru'
        injection hru' with hru'
        subst hru'
        rw [hps] at hps'
        exact Option.noConfusion hps'
      · rw [hru] at hru'
        injection hru' with hru'
        subst hru'
        rw [hps] at hps'
        exact Option.noConfusion hps'
      · rw [hbu] at hbu'
        injection hbu' with hbu'
        subst hbu'
        rw [hj] at hj'
        injection hj' with hj'
        subst hj'
        rw [get_fallback_url, hfalse] at hfb
        simp at hfb

/-- C1 witness: the `/articles/foo` run in `testEnv` takes the `None` branch
and binds the fallback URL `https://signed.example/articles/foo`, whose
authority is the signed domain and not the backend host. -/
theorem c1_none_branch_fallback_host_witness :
    compute_req_url testEnv testReq = .ok "https://signed.example/articles/foo" ∧
    serve_preset_content testEnv "https://signed.example/articles/foo" = none ∧
    testEnv.url_parse "https://backend.example" = .ok backendOriginUrl ∧
    testEnv.url_join backendOriginUrl "/articles/foo" = .ok fooBackendUrl ∧
    handle testEnv "203.0.113.7" testReq "https://backend.example" = .ok fooOutcome ∧
    fooOutcome.fallbackUrl = some { scheme := some "https"
                                    authority := some "signed.example"
                                    path := "/articles/foo"
                                    query := none } ∧
    fooOutcome.fallbackUrl.map Uri.authority ≠ some (some "backend.example") :=
  ⟨rfl, rfl, rfl, rfl, rfl,
    ((c1_none_branch_fallback_host testEnv "203.0.113.7" testReq "https://backend.example"
        "https://signed.example/articles/foo" backendOriginUrl fooBackendUrl fooOutcome
        rfl rfl rfl rfl).1 rfl).1,
    ((c1_none_branch_fallback_host testEnv "203.0.113.7" testReq "https://backend.example"
        "https://signed.example/articles/foo" backendOriginUrl fooBackendUrl fooOutcome
        rfl rfl rfl rfl).1 rfl).2 (by decide)⟩

/-- C2 counterexample: in `testEnv404` the backend answers `/missing` with
status 404, yet `handle` succeeds and assembles a signing call — with
`status_code` forced to 200 and the 404 body as payload.  The signing call
is neither bypassed nor does it error. -/
theorem c2_counterexample_non200_signed :
    testEnv404.proxy_call "203.0.113.7" "https://backend.example" missingProxyRecord =
      .ok { status := 404, headers := [], body := "not found" } ∧
    handle testEnv404 "203.0.113.7" testReqMissing "https://backend.example" =
      .ok missingOutcome ∧
    missingOutcome.signingCall = some missingParams ∧
    missingParams.status_code = 200 ∧
    missingParams.payload_body = "not found" :=
  ⟨rfl, rfl, rfl, rfl, rfl⟩

/-- C2 amended: for every request whose payload response comes from the
backend with a status other than 200, the dispatcher still invokes the
signing call, with `status_code` forced to 200 and the backend body as
payload; the backend status is never inspected and nothing is bypassed. -/
theorem c2_signs_non200_backend_response (env : Env) (ip : IpAddr) (req : Request)
    (backend : String) (out : Outcome) (rec : ProxyCallRecord) (payload : HttpResponse)
    (hok : handle env ip req backend = .ok out)
    (hrec : out.proxied = some rec)
    (hpay : env.proxy_call ip backend rec = .ok payload)
    (hstatus : payload.status ≠ 200) :
    ∃ p, out.signingCall = some p ∧ p.status_code = 200 ∧
      p.payload_body = payload.body := by
  rcases handle_ok_cases env ip req backend out hok with
    ⟨ru, resp, _, _, hout⟩ |
    ⟨ru, url, payload', fb, res, _, _, _, _, hout⟩ |
    ⟨ru, bu, burl, fb, rh, payload', res, _, _, _, _, _, _, hpx, hgen, hout⟩
  · subst hout
    exact Option.noConfusion hrec
  · subst hout
    exact Option.noConfusion hrec
  · subst hout
    injection hrec with hrec
    rw [← hrec] at hpay
    rw [hpx] at hpay
    injection hpay with hpay
    subst hpay
    obtain ⟨co, ph, _, _, _, hres⟩ := generate_sxg_response_ok env fb.toUri payload' res hgen
    exact ⟨res.2, rfl, by rw [hres]; rfl, by rw [hres]; rfl⟩

/-- C2 amended witness: the `/missing` run of `testEnv404` exhibits a 404
backend response whose body is nonetheless signed with status 200. -/
theorem c2_signs_non200_backend_response_witness :
    handle testEnv404 "203.0.113.7" testReqMissing "https://backend.example" =
      .ok missingOutcome ∧
    (404 : Nat) ≠ 200 ∧
    (∃ p, missingOutcome.signingCall = some p ∧ p.status_code = 200 ∧
      p.payload_body = "not found") :=
  ⟨rfl, by decide,
    c2_signs_non200_backend_response testEnv404 "203.0.113.7" testReqMissing
      "https://backend.example" missingOutcome missingProxyRecord
      { status := 404, headers := [], body := "not found" } rfl rfl rfl (by decide)⟩

/-- C6: in the `None` branch the dispatcher transforms the request headers
with the `PrefersSxg` filter, builds the backend request from the filtered
headers together with the original method, request target and body, proxies
it through the reverse-proxy client tagged with the original client address,
uses the backend's response as the signing payload, and derives the fallback
URL from the backend URL joined from the configured backend origin and the
request target. -/
theorem c6_none_branch_proxy (env : Env) (ip : IpAddr) (req : Request) (backend : String)
    (ru : String) (bu burl : Url) (ths : Headers) (out : Outcome)
    (hru : compute_req_url env req = .ok ru)
    (hps : serve_preset_content env ru = none)
    (hbu : env.url_parse backend = .ok bu)
    (hj : env.url_join bu req.uri = .ok burl)
    (hth : env.transform_request_headers req.headers .prefersSxg = .ok ths)
    (hok : handle env ip req backend = .ok out) :
    out.proxied = some { client_ip := ip, backend := backend, method := req.method
                         uri := req.uri, headers := ths, body := req.body } ∧
    (∀ presp, env.proxy_call ip backend
        { client_ip := ip, backend := backend, method := req.method
          uri := req.uri, headers := ths, body := req.body } = .ok presp →
      ∃ p, out.signingCall = some p ∧ p.payload_body = presp.body) ∧
    (env.eligible burl = true →
      out.fallbackUrl = some (Url.toUri { burl with host := env.html_host })) := by
  rcases handle_ok_cases env ip req backend out hok with
    ⟨ru', resp, hru', hps', _⟩ |
    ⟨ru', url, payload, fb, res, hru', hps', _, _, _⟩ |
    ⟨ru', bu', burl', fb, rh, payload, res, hru', hps', hbu', hj', hfb, hth', hpx,
      hgen, hout⟩
  · rw [hru] at hru'
    injection hru' with hru'
    subst hru'
    rw [hps] at hps'
    exact Option.noConfusion hps'
  · rw [hru] at hru'
    injection hru' with hru'
    subst hru'
    rw [hps] at hps'
    exact Option.noConfusion hps'
  · rw [hbu] at hbu'
    injection hbu' with hbu'
    subst hbu'
    rw [hj] at hj'
    injection hj' with hj'
    subst hj'
    rw [hth] at hth'
    injection hth' with hth'
    subst hth'
    subst hout
    refine ⟨rfl, ?_, ?_⟩
    · intro presp hpr
      rw [hpx] at hpr
      injection hpr with hpr
      subst hpr
      obtain ⟨co, ph, _, _, _, hres⟩ := generate_sxg_response_ok env fb.toUri payload res hgen
      exact ⟨res.2, rfl, by rw [hres]; rfl⟩
    · intro helig
      rw [get_fallback_url, helig] at hfb
      simp only [if_pos] at hfb
      injection hfb with hfb
      subst hfb
      rfl

/-- C6 witness: the `/articles/foo` run in `testEnv` proxies the original
method, target, filtered headers and body with the client address, signs the
backend's body, and derives the fallback from the joined backend URL. -/
theorem c6_none_branch_proxy_witness :
    handle testEnv "203.0.113.7" testReq "https://backend.example" = .ok fooOutcome ∧
    fooOutcome.proxied = some fooProxyRecord ∧
    (∃ p, fooOutcome.signingCall = some p ∧ p.payload_body = "payload") ∧
    fooOutcome.fallbackUrl = some (Url.toUri { fooBackendUrl with host := "signed.example" }) :=
  ⟨rfl,
    (c6_none_branch_proxy testEnv "203.0.113.7" testReq "https://backend.example"
      "https://signed.example/articles/foo" backendOriginUrl fooBackendUrl
      [("accept", "text/html")] fooOutcome rfl rfl rfl rfl rfl rfl).1,
    (c6_none_branch_proxy testEnv "203.0.113.7" testReq "https://backend.example"
      "https://signed.example/articles/foo" backendOriginUrl fooBackendUrl
      [("accept", "text/html")] fooOutcome rfl rfl rfl rfl rfl rfl).2.1
      { status := 200, headers := [("content-type", "text/html")], body := "payload" } rfl,
    (c6_none_branch_proxy testEnv "203.0.113.7" testReq "https://backend.example"
      "https://signed.example/articles/foo" backendOriginUrl fooBackendUrl
      [("accept", "text/html")] fooOutcome rfl rfl rfl rfl rfl rfl).2.2 rfl⟩

/-- C7: the server's response function is total over the pipeline result —
when `handle` succeeds its response is returned unchanged, and when it fails
the response is HTTP 500 with a debug rendering of the failure as its body;
no failure escapes or is retried. -/
theorem c7_error_becomes_500 (env : Env) (ip : IpAddr) (req : Request) (backend : String) :
    (∀ out, handle env ip req backend = .ok out →
        handle_or_error env ip req backend = out.response) ∧
    (∀ e, handle env ip req backend = .error e →
        handle_or_error env ip req backend =
          { status := 500, headers := [], body := debugRender e }) := by
  constructor
  · intro out hok
    unfold handle_or_error
    rw [hok]
  · intro e he
    unfold handle_or_error
    rw [he]

/-- C7 witness: a successful run (preset certificate) is returned unchanged,
and a failing run (broken signer) yields a 500 whose body renders the
error. -/
theorem c7_error_becomes_500_witness :
    handle_or_error testEnvDirect "203.0.113.7" testReqCert "https://backend.example" =
      { status := 200, headers := [("content-type", "application/cert-chain+cbor")]
        body := "certbytes" } ∧
    handle testEnvBadSigner "203.0.113.7" testReq "https://backend.example" =
      .error (.signerConstruction "no key") ∧
    handle_or_error testEnvBadSigner "203.0.113.7" testReq "https://backend.example" =
      { status := 500, headers := [], body := "SignerConstructionError(no key)" } :=
  ⟨(c7_error_becomes_500 testEnvDirect "203.0.113.7" testReqCert "https://backend.example").1
      { response := { status := 200
                      headers := [("content-type", "application/cert-chain+cbor")]
                      body := "certbytes" }
        signingCall := none, proxied := none, fallbackUrl := none } rfl,
    rfl,
    (c7_error_becomes_500 testEnvBadSigner "203.0.113.7" testReq "https://backend.example").2
      (.signerConstruction "no key") rfl⟩

/-- C10: when constructing the signer fails, `serve_preset_content` returns
`none` instead of surfacing the failure, so the dispatcher routes the
request through the backend-proxy (`None`) branch. -/
theorem c10_bad_signer_routes_none (env : Env) (ip : IpAddr) (req : Request)
    (backend : String) (e : Err) (ru : String)
    (hsig : env.create_rust_signer = .error e)
    (hru : compute_req_url env req = .ok ru) :
    serve_preset_content env ru = none ∧
    handle env ip req backend = handle_none_branch env ip req backend := by
  have hall : ∀ url, serve_preset_content env url = none := by
    intro url
    unfold serve_preset_content
    rw [hsig]
  refine ⟨hall ru, ?_⟩
  unfold handle
  rw [hru, ebind_ok, hall ru]

/-- C10 witness: with the broken-signer environment, the preset lookup is
`none` and `handle` coincides with the `None` (backend-proxy) branch on the
concrete request. -/
theorem c10_bad_signer_routes_none_witness :
    testEnvBadSigner.create_rust_signer = .error (.signerConstruction "no key") ∧
    serve_preset_content testEnvBadSigner "https://signed.example/articles/foo" = none ∧
    handle testEnvBadSigner "203.0.113.7" testReq "https://backend.example" =
      handle_none_branch testEnvBadSigner "203.0.113.7" testReq "https://backend.example" :=
  ⟨rfl,
    (c10_bad_signer_routes_none testEnvBadSigner "203.0.113.7" testReq
      "https://backend.example" (.signerConstruction "no key")
      "https://signed.example/articles/foo" rfl rfl).1,
    (c10_bad_signer_routes_none testEnvBadSigner "203.0.113.7" testReq
      "https://backend.example" (.signerConstruction "no key")
      "https://signed.example/articles/foo" rfl rfl).2⟩

/-- Equation: `create_private_key_pem` when the openssl invocation fails. -/
theorem create_private_key_pem_cmd_err (w : World) (fs : FileSystem) (output : String)
    (e : Err) (h : execute_and_parse_stdout w genkeyCommand = .error e) :
    create_private_key_pem w fs output = (.error e, fs) := by
  unfold create_private_key_pem
  rw [h]

/-- Equation: `create_private_key_pem` when the openssl invocation yields
`pem`. -/
theorem create_private_key_pem_cmd_ok (w : World) (fs : FileSystem) (output : String)
    (pem : String) (h : execute_and_parse_stdout w genkeyCommand = .ok pem) :
    create_private_key_pem w fs output =
      (match write_new_file fs output pem with
       | (.error e, fs') => (Except.error e, fs')
       | (.ok _, fs') => (Except.ok pem, fs')) := by
  unfold create_private_key_pem
  rw [h]

/-- Equation: `create_certificate_request_pem` when openssl fails. -/
theorem create_certificate_request_pem_cmd_err (w : World) (domain keyf : String)
    (fs : FileSystem) (output : String) (e : Err)
    (h : execute_and_parse_stdout w (csrCommand domain keyf) = .error e) :
    create_certificate_request_pem w domain keyf fs output = (.error e, fs) := by
  unfold create_certificate_request_pem
  rw [h]

/-- Equation: `create_certificate_request_pem` when openssl yields `pem`. -/
theorem create_certificate_request_pem_cmd_ok (w : World) (domain keyf : String)
    (fs : FileSystem) (output : String) (pem : String)
    (h : execute_and_parse_stdout w (csrCommand domain keyf) = .ok pem) :
    create_certificate_request_pem w domain keyf fs output =
      (match write_new_file fs output pem with
       | (.error e, fs') => (Except.error e, fs')
       | (.ok _, fs') => (Except.ok pem, fs')) := by
  unfold create_certificate_request_pem
  rw [h]

/-- Equation: `create_certificate` when openssl fails. -/
theorem create_certificate_cmd_err (w : World) (keyf csrf extf : String)
    (fs : FileSystem) (output : String) (e : Err)
    (h : execute_and_parse_stdout w (x509Command keyf csrf extf) = .error e) :
    create_certificate w keyf csrf extf fs output = (.error e, fs) := by
  unfold create_certificate
  rw [h]

/-- Equation: `create_certificate` when openssl yields `pem`. -/
theorem create_certificate_cmd_ok (w : World) (keyf csrf extf : String)
    (fs : FileSystem) (output : String) (pem : String)
    (h : execute_and_parse_stdout w (x509Command keyf csrf extf) = .ok pem) :
    create_certificate w keyf csrf extf fs output =
      (match write_new_file fs output pem with
       | (.error e, fs') => (Except.error e, fs')
       | (.ok _, fs') => (Except.ok pem, fs')) := by
  unfold create_certificate
  rw [h]

/-- `write_new_file` refuses when the target exists, leaving the filesystem
untouched. -/
theorem write_new_file_exists (fs : FileSystem) (output c pem : String)
    (h : fs output = some c) :
    write_new_file fs output pem = (.error (.refuseOverwrite output), fs) := by
  unfold write_new_file
  rw [h]
  rfl

/-- `write_new_file` writes when the target is absent. -/
theorem write_new_file_fresh (fs : FileSystem) (output pem : String)
    (h : fs output = none) :
    write_new_file fs output pem = (.ok (), fs.write output pem) := by
  unfold write_new_file
  rw [h]
  rfl

/-- C8: each certificate-issuance generation step returns an error when its
output file already exists, leaving the filesystem unchanged; consequently
running the private-key step twice on the same fresh path succeeds once and
fails the second time without mutating the file written by the first call. -/
theorem c8_generation_never_overwrites (w : World) (fs fs0 : FileSystem)
    (output c domain keyf csrf extf : String)
    (hex : fs output = some c)
    (hfresh : fs0 output = none) :
    ((∃ e, (create_private_key_pem w fs output).1 = .error e) ∧
        (create_private_key_pem w fs output).2 = fs) ∧
    ((∃ e, (create_certificate_request_pem w domain keyf fs output).1 = .error e) ∧
        (create_certificate_request_pem w domain keyf fs output).2 = fs) ∧
    ((∃ e, (create_certificate w keyf csrf extf fs output).1 = .error e) ∧
        (create_certificate w keyf csrf extf fs output).2 = fs) ∧
    (∀ pem fs1, create_private_key_pem w fs0 output = (.ok pem, fs1) →
        fs1 output = some pem ∧
        (∃ e, (create_private_key_pem w fs1 output).1 = .error e) ∧
        (create_private_key_pem w fs1 output).2 = fs1) := by
  have key : ∀ (g : FileSystem) (d : String), g output = some d →
      (∃ e, (create_private_key_pem w g output).1 = .error e) ∧
      (create_private_key_pem w g output).2 = g := by
    intro g d hg
    cases hc : execute_and_parse_stdout w genkeyCommand with
    | error e =>
      rw [create_private_key_pem_cmd_err w g output e hc]
      exact ⟨⟨e, rfl⟩, rfl⟩
    | ok pem =>
      rw [create_private_key_pem_cmd_ok w g output pem hc,
          write_new_file_exists g output d pem hg]
      exact ⟨⟨.refuseOverwrite output, rfl⟩, rfl⟩
  refine ⟨key fs c hex, ?_, ?_, ?_⟩
  · cases hc : execute_and_parse_stdout w (csrCommand domain keyf) with
    | error e =>
      rw [create_certificate_request_pem_cmd_err w domain keyf fs output e hc]
      exact ⟨⟨e, rfl⟩, rfl⟩
    | ok pem =>
      rw [create_certificate_request_pem_cmd_ok w domain keyf fs output pem hc,
          write_new_file_exists fs output c pem hex]
      exact ⟨⟨.refuseOverwrite output, rfl⟩, rfl⟩
  · cases hc : execute_and_parse_stdout w (x509Command keyf csrf extf) with
    | error e =>
      rw [create_certificate_cmd_err w keyf csrf extf fs output e hc]
      exact ⟨⟨e, rfl⟩, rfl⟩
    | ok pem =>
      rw [create_certificate_cmd_ok w keyf csrf extf fs output pem hc,
          write_new_file_exists fs output c pem hex]
      exact ⟨⟨.refuseOverwrite output, rfl⟩, rfl⟩
  · intro pem fs1 hcall
    cases hc : execute_and_parse_stdout w genkeyCommand with
    | error e =>
      rw [create_private_key_pem_cmd_err w fs0 output e hc] at hcall
      injection hcall with h1 h2
      exact Except.noConfusion h1
    | ok pem0 =>
      rw [create_private_key_pem_cmd_ok w fs0 output pem0 hc,
          write_new_file_fresh fs0 output pem0 hfresh] at hcall
      injection hcall with h1 h2
      injection h1 with h1
      have hg1 : fs1 output = some pem := by
        rw [← h2, ← h1]
        simp [FileSystem.write]
      exact ⟨hg1, key fs1 pem hg1⟩

/-- C8 witness: with `key.pem` already on disk the private-key step fails
and leaves the file intact; on an empty filesystem a first run writes
`PEMDATA` and a second run fails without mutating it. -/
theorem c8_generation_never_overwrites_witness :
    testFS "key.pem" = some "OLDKEY" ∧
    emptyFS "key.pem" = none ∧
    ((∃ e, (create_private_key_pem testWorldOk testFS "key.pem").1 = .error e) ∧
      (create_private_key_pem testWorldOk testFS "key.pem").2 = testFS) ∧
    (FileSystem.write emptyFS "key.pem" "PEMDATA" "key.pem" = some "PEMDATA" ∧
      (∃ e, (create_private_key_pem testWorldOk
        (FileSystem.write emptyFS "key.pem" "PEMDATA") "key.pem").1 = .error e) ∧
      (create_private_key_pem testWorldOk
        (FileSystem.write emptyFS "key.pem" "PEMDATA") "key.pem").2 =
        FileSystem.write emptyFS "key.pem" "PEMDATA") :=
  ⟨rfl, rfl,
    (c8_generation_never_overwrites testWorldOk testFS emptyFS "key.pem" "OLDKEY"
      "example.org" "key.pem" "cert.csr" "ext.cnf" rfl rfl).1,
    (c8_generation_never_overwrites testWorldOk testFS emptyFS "key.pem" "OLDKEY"
      "example.org" "key.pem" "cert.csr" "ext.cnf" rfl rfl).2.2.2
      "PEMDATA" (FileSystem.write emptyFS "key.pem" "PEMDATA") rfl⟩

/-- C9: `execute` returns the captured stdout without inspecting the exit
status — its result is invariant under changing the exit status — so a
spawnable command that exits with failure still leads the private-key step
to write that stdout to the output file and report success. -/
theorem c9_execute_ignores_exit_status (w wAlt : World) (c : Command) (fs : FileSystem)
    (output : String)
    (hsp2 : (wAlt c).spawned = (w c).spawned)
    (hout2 : (wAlt c).stdout = (w c).stdout)
    (hsp : (w genkeyCommand).spawned = true)
    (hutf : (w genkeyCommand).stdout_utf8 = true)
    (_hfail : (w genkeyCommand).exit_ok = false)
    (hfresh : fs output = none) :
    execute wAlt c = execute w c ∧
    (create_private_key_pem w fs output).1 = .ok (w genkeyCommand).stdout ∧
    (create_private_key_pem w fs output).2 output = some (w genkeyCommand).stdout := by
  have hcmd : execute_and_parse_stdout w genkeyCommand =
      .ok (w genkeyCommand).stdout := by
    unfold execute_and_parse_stdout execute
    rw [hsp, hutf]
    rfl
  have hstep : create_private_key_pem w fs output =
      (.ok (w genkeyCommand).stdout, fs.write output (w genkeyCommand).stdout) := by
    rw [create_private_key_pem_cmd_ok w fs output (w genkeyCommand).stdout hcmd,
        write_new_file_fresh fs output (w genkeyCommand).stdout hfresh]
  refine ⟨?_, ?_, ?_⟩
  · unfold execute
    rw [hsp2, hout2]
  · rw [hstep]
  · rw [hstep]
    simp [FileSystem.write]

/-- C9 witness: in `testWorldFailedExit` the command exits with failure yet
the step succeeds, returning and writing the partial stdout `PARTIAL`. -/
theorem c9_execute_ignores_exit_status_witness :
    (testWorldFailedExit genkeyCommand).exit_ok = false ∧
    (create_private_key_pem testWorldFailedExit emptyFS "key.pem").1 = .ok "PARTIAL" ∧
    (create_private_key_pem testWorldFailedExit emptyFS "key.pem").2 "key.pem" =
      some "PARTIAL" :=
  ⟨rfl,
    (c9_execute_ignores_exit_status testWorldFailedExit testWorldFailedExit genkeyCommand
      emptyFS "key.pem" rfl rfl rfl rfl rfl rfl).2.1,
    (c9_execute_ignores_exit_status testWorldFailedExit testWorldFailedExit genkeyCommand
      emptyFS "key.pem" rfl rfl rfl rfl rfl rfl).2.2⟩
